import Mathlib

/-!
# LoRaHeltecV4: a shallow embedding of the SX1262 wrapper class

Source: `src/lora_heltec_v4/LoRa_HeltecV4.cpp`, `LoRa_HeltecV4.h`,
`config_heltec_v4.h`.

The class keeps two data members that matter to callers (`initialized`,
`lastStatus`), drives four GPIO pins and forwards every radio operation to
the RadioLib driver object `radio`.  The embedding is explicit state passing:

* the levels of the four pins the class writes are kept in `Pins`;
* every hardware effect (pin mode, pin write, delay, SPI start, driver call)
  is appended to an ordered `trace`;
* the driver is a black box whose answers are injected: every method takes
  the status (and, where the code asks for it, the packet length or the
  interrupt flags) that the driver call it contains will return.

`float` arguments are only passed through, never computed with; they are
carried as their IEEE-754 single precision bit patterns.  `Serial` logging
has no effect on the object, the pins or the driver and is left out.
-/

namespace LoRaHeltec

/-! ## Constants of `config_heltec_v4.h` -/

/-- Bit pattern of a `float` that is passed through unchanged. -/
abbrev F32 := Nat

def LORA_SCK : Nat := 9
def LORA_MISO : Nat := 11
def LORA_MOSI : Nat := 10
def LORA_CS : Nat := 8

/-- The value `1.8f`. -/
def SX126X_DIO3_TCXO_VOLTAGE : F32 := 0x3FE66666

/-- The macro is defined in the configuration header, so the guarded code is compiled in. -/
def SX126X_DIO2_AS_RF_SWITCH : Bool := true

/-- The macro is defined in the configuration header, so the guarded code is compiled in. -/
def USE_GC1109_PA : Bool := true

def LORA_PA_POWER : Nat := 7
def LORA_PA_EN : Nat := 2
def LORA_PA_TX_EN : Nat := 46
def VEXT_ENABLE : Nat := 36

/-- The value `915.0f`. -/
def LORA_FREQUENCY : F32 := 0x4464C000

/-- The value `125.0f`. -/
def LORA_BANDWIDTH : F32 := 0x42FA0000

def LORA_SPREADING : Nat := 12
def LORA_CODING_RATE : Nat := 8
def LORA_SYNC_WORD : Nat := 0x12
def LORA_TX_POWER : Int := 17
def LORA_PREAMBLE_LEN : Nat := 8

/-- The value `140.0f`. -/
def LORA_CURRENT_LIMIT : F32 := 0x430C0000

/-- Arduino pin level `HIGH`. -/
def HIGH : Bool := true

/-- Arduino pin level `LOW`. -/
def LOW : Bool := false

/-! ## Constants of the RadioLib driver

The driver library is not part of the repository.  The code only compares
against these constants or passes them on, so they are a parameter of the
embedding. -/

/-- Constants the class takes from the RadioLib headers. -/
structure RadioLibDefs where
  RADIOLIB_ERR_NONE : Int
  RADIOLIB_ERR_CHIP_NOT_FOUND : Int
  RADIOLIB_ERR_RX_TIMEOUT : Int
  RADIOLIB_SX126X_IRQ_RX_DONE : Nat
  RADIOLIB_SX126X_LORA_CRC_ON : Nat
  deriving DecidableEq, Repr

/-- The values RadioLib publishes for the constants (`TypeDef.h`, `SX126x.h`). -/
def radioLib : RadioLibDefs where
  RADIOLIB_ERR_NONE := 0
  RADIOLIB_ERR_CHIP_NOT_FOUND := -2
  RADIOLIB_ERR_RX_TIMEOUT := -6
  RADIOLIB_SX126X_IRQ_RX_DONE := 0x0002
  RADIOLIB_SX126X_LORA_CRC_ON := 0x01

/-! ## Hardware effects -/

/-- One hardware effect: an Arduino call or a call into the driver object `radio`. -/
inductive Event where
  | pinMode (pin : Nat)
  | digitalWrite (pin : Nat) (level : Bool)
  | delay (ms : Nat)
  | spiBegin (sck miso mosi cs : Nat)
  | radioBegin (frequency bandwidth : F32) (spreadingFactor codingRate syncWord : Nat)
      (power : Int) (preambleLen : Nat) (tcxoVoltage : F32) (useRegulatorLDO : Bool)
  | radioSetCurrentLimit (limit : F32)
  | radioSetDio2AsRfSwitch (enable : Bool)
  | radioSetCRC (len : Nat)
  | radioTransmit (data : List Nat) (len : Nat)
  | radioReceive (maxLen : Nat) (timeout : Option Nat)
  | radioReceiveStr (timeout : Option Nat)
  | radioStartReceive
  | radioGetIrqFlags
  | radioReadData (maxLen : Nat)
  | radioGetPacketLength
  | radioGetRSSI
  | radioGetSNR
  | radioGetFrequencyError
  | radioSetFrequency (freq : F32)
  | radioSetOutputPower (power : Int)
  | radioSetSpreadingFactor (sf : Nat)
  | radioSetBandwidth (bw : F32)
  | radioSleep (retainConfig : Bool)
  | radioStandby
  | radioSetRxBoostedGainMode (enable : Bool)
  deriving DecidableEq, Repr

/-- Whether an effect is a call into the driver object. -/
def Event.isDriverCall : Event → Bool
  | .pinMode _ => false
  | .digitalWrite _ _ => false
  | .delay _ => false
  | .spiBegin _ _ _ _ => false
  | _ => true

/-- Whether an effect is a write to a GPIO pin. -/
def Event.isPinWrite : Event → Bool
  | .digitalWrite _ _ => true
  | _ => false

/-- Levels of the four output pins the class drives. -/
structure Pins where
  vext : Bool
  paPower : Bool
  paEn : Bool
  paTxEn : Bool
  deriving DecidableEq, Repr

/-- Level of a pin after `digitalWrite(pin, level)`. -/
def Pins.write (p : Pins) (pin : Nat) (level : Bool) : Pins :=
  if pin = VEXT_ENABLE then { p with vext := level }
  else if pin = LORA_PA_POWER then { p with paPower := level }
  else if pin = LORA_PA_EN then { p with paEn := level }
  else if pin = LORA_PA_TX_EN then { p with paTxEn := level }
  else p

/-- Current level of a pin (pins the class never drives read `LOW`). -/
def Pins.read (p : Pins) (pin : Nat) : Bool :=
  if pin = VEXT_ENABLE then p.vext
  else if pin = LORA_PA_POWER then p.paPower
  else if pin = LORA_PA_EN then p.paEn
  else if pin = LORA_PA_TX_EN then p.paTxEn
  else LOW

/-! ## The object -/

/-- Data members of `LoRaHeltecV4` together with the board it drives. -/
structure LoRaHeltecV4 where
  /-- Member `spi`: `false` is `nullptr`. -/
  spi : Bool
  initialized : Bool
  lastStatus : Int
  pins : Pins
  trace : List Event
  deriving DecidableEq, Repr

/-- Constructor `LoRaHeltecV4::LoRaHeltecV4()`, on a board whose pins are at `pins`. -/
def LoRaHeltecV4.ctor (R : RadioLibDefs) (pins : Pins) : LoRaHeltecV4 where
  spi := false
  initialized := false
  lastStatus := R.RADIOLIB_ERR_NONE
  pins := pins
  trace := []

/-- Record an effect that does not change a pin level. -/
def emit (e : Event) (s : LoRaHeltecV4) : LoRaHeltecV4 :=
  { s with trace := s.trace ++ [e] }

/-- Arduino `pinMode(pin, OUTPUT)`. -/
def pinMode (pin : Nat) (s : LoRaHeltecV4) : LoRaHeltecV4 :=
  emit (Event.pinMode pin) s

/-- Arduino `digitalWrite(pin, level)`. -/
def digitalWrite (pin : Nat) (level : Bool) (s : LoRaHeltecV4) : LoRaHeltecV4 :=
  { s with pins := s.pins.write pin level, trace := s.trace ++ [Event.digitalWrite pin level] }

/-- Conversion of an integer to `int16_t` (two's complement wrap). -/
def toInt16 (n : Int) : Int :=
  (n + 32768) % 65536 - 32768

/-- Private method `initPA`. -/
def initPA (s : LoRaHeltecV4) : LoRaHeltecV4 :=
  if USE_GC1109_PA then
    let s := pinMode LORA_PA_POWER s
    let s := digitalWrite LORA_PA_POWER HIGH s
    let s := pinMode LORA_PA_EN s
    let s := digitalWrite LORA_PA_EN LOW s
    let s := pinMode LORA_PA_TX_EN s
    digitalWrite LORA_PA_TX_EN LOW s
  else s

/-- Private method `setTxEnable`. -/
def setTxEnable (txEnable : Bool) (s : LoRaHeltecV4) : LoRaHeltecV4 :=
  if USE_GC1109_PA then
    let s := digitalWrite LORA_PA_POWER HIGH s
    let s := digitalWrite LORA_PA_EN HIGH s
    digitalWrite LORA_PA_TX_EN (if txEnable then HIGH else LOW) s
  else s

/-- Private method `setVext` (the rail is active low). -/
def setVext (enable : Bool) (s : LoRaHeltecV4) : LoRaHeltecV4 :=
  let s := pinMode VEXT_ENABLE s
  digitalWrite VEXT_ENABLE (if enable then LOW else HIGH) s

/-! ## Public methods

Each method returns its C++ return value and the state it leaves.  The
trailing arguments are the answers of the driver calls made inside. -/

/-- Method `begin`.  `stBegin`, `stLimit`, `stDio2`, `stCrc` are the statuses
returned by `radio.begin`, `radio.setCurrentLimit`, `radio.setDio2AsRfSwitch`
and `radio.setCRC`.  The assignment `radio.LORA_CS = LORA_CS` between the SPI
start and the driver call writes no pin and calls no driver operation; it has
no counterpart here. -/
def begin (R : RadioLibDefs) (s : LoRaHeltecV4)
    (frequency bandwidth : F32) (spreadingFactor codingRate syncWord : Nat) (power : Int)
    (stBegin stLimit stDio2 stCrc : Int) : Bool × LoRaHeltecV4 :=
  let s := setVext true s
  let s := emit (Event.delay 100) s
  let s := initPA s
  let s := { s with spi := true }
  let s := emit (Event.spiBegin LORA_SCK LORA_MISO LORA_MOSI LORA_CS) s
  let s := emit (Event.radioBegin frequency bandwidth spreadingFactor codingRate syncWord
    power LORA_PREAMBLE_LEN SX126X_DIO3_TCXO_VOLTAGE false) s
  let s := { s with lastStatus := stBegin }
  if s.lastStatus ≠ R.RADIOLIB_ERR_NONE then
    (false, s)
  else
    let s := emit (Event.radioSetCurrentLimit LORA_CURRENT_LIMIT) s
    let s := { s with lastStatus := stLimit }
    let s :=
      if SX126X_DIO2_AS_RF_SWITCH then
        let s := emit (Event.radioSetDio2AsRfSwitch true) s
        { s with lastStatus := stDio2 }
      else s
    let s := emit (Event.radioSetCRC R.RADIOLIB_SX126X_LORA_CRC_ON) s
    let s := { s with lastStatus := stCrc }
    let s := { s with initialized := true }
    (true, s)

/-- Method `send(uint8_t*, size_t)`.  `stTx` is the status returned by `radio.transmit`. -/
def send (R : RadioLibDefs) (s : LoRaHeltecV4) (data : List Nat) (len : Nat)
    (stTx : Int) : Int × LoRaHeltecV4 :=
  if !s.initialized then
    (R.RADIOLIB_ERR_CHIP_NOT_FOUND, s)
  else
    let s := setTxEnable true s
    let s := emit (Event.radioTransmit data len) s
    let s := { s with lastStatus := stTx }
    let s := setTxEnable false s
    (s.lastStatus, s)

/-- Method `send(const String&)`: the bytes of the string and its length. -/
def sendStr (R : RadioLibDefs) (s : LoRaHeltecV4) (str : List Nat) (stTx : Int) :
    Int × LoRaHeltecV4 :=
  send R s str str.length stTx

/-- Method `receive(uint8_t*, size_t, uint32_t)`.  `stRx` is the status returned
by `radio.receive`, `pktLen` the answer of `radio.getPacketLength`.  In the
success branch the two telemetry getters are arguments of one `printf`, so C++
leaves the order of the two calls open; they are recorded here in the order in
which they are written, and statements about this branch are made up to the
order of the two. -/
def receive (R : RadioLibDefs) (s : LoRaHeltecV4) (maxLen timeout : Nat)
    (stRx : Int) (pktLen : Nat) : Int × LoRaHeltecV4 :=
  if !s.initialized then
    (R.RADIOLIB_ERR_CHIP_NOT_FOUND, s)
  else
    let s := setTxEnable false s
    let s :=
      if timeout > 0 then emit (Event.radioReceive maxLen (some timeout)) s
      else emit (Event.radioReceive maxLen none) s
    let s := { s with lastStatus := stRx }
    if s.lastStatus = R.RADIOLIB_ERR_NONE then
      let s := emit Event.radioGetPacketLength s
      let s := emit Event.radioGetRSSI s
      let s := emit Event.radioGetSNR s
      (toInt16 pktLen, s)
    else if s.lastStatus = R.RADIOLIB_ERR_RX_TIMEOUT then
      (0, s)
    else
      (s.lastStatus, s)

/-- Method `receive(String&, uint32_t)`. -/
def receiveStr (R : RadioLibDefs) (s : LoRaHeltecV4) (timeout : Nat) (stRx : Int) :
    Int × LoRaHeltecV4 :=
  if !s.initialized then
    (R.RADIOLIB_ERR_CHIP_NOT_FOUND, s)
  else
    let s := setTxEnable false s
    let s :=
      if timeout > 0 then emit (Event.radioReceiveStr (some timeout)) s
      else emit (Event.radioReceiveStr none) s
    let s := { s with lastStatus := stRx }
    (s.lastStatus, s)

/-- Method `startReceive`. -/
def startReceive (R : RadioLibDefs) (s : LoRaHeltecV4) (stRx : Int) : Int × LoRaHeltecV4 :=
  if !s.initialized then
    (R.RADIOLIB_ERR_CHIP_NOT_FOUND, s)
  else
    let s := setTxEnable false s
    let s := emit Event.radioStartReceive s
    let s := { s with lastStatus := stRx }
    (s.lastStatus, s)

/-- Method `available`.  `irqFlags` is the answer of `radio.getIrqFlags`. -/
def available (R : RadioLibDefs) (s : LoRaHeltecV4) (irqFlags : Nat) : Bool × LoRaHeltecV4 :=
  if !s.initialized then
    (false, s)
  else
    let s := emit Event.radioGetIrqFlags s
    if (irqFlags % 65536) &&& R.RADIOLIB_SX126X_IRQ_RX_DONE ≠ 0 then
      (true, s)
    else
      (false, s)

/-- Method `readData`.  `stRead` is the status returned by `radio.readData`,
`pktLen` the answer of `radio.getPacketLength`. -/
def readData (R : RadioLibDefs) (s : LoRaHeltecV4) (maxLen : Nat)
    (stRead : Int) (pktLen : Nat) : Int × LoRaHeltecV4 :=
  if !s.initialized then
    (R.RADIOLIB_ERR_CHIP_NOT_FOUND, s)
  else
    let s := emit (Event.radioReadData maxLen) s
    let s := { s with lastStatus := stRead }
    if s.lastStatus = R.RADIOLIB_ERR_NONE then
      let s := emit Event.radioGetPacketLength s
      (toInt16 pktLen, s)
    else
      (s.lastStatus, s)

/-- Method `setFrequency`. -/
def setFrequency (s : LoRaHeltecV4) (freq : F32) (st : Int) : Int × LoRaHeltecV4 :=
  let s := emit (Event.radioSetFrequency freq) s
  let s := { s with lastStatus := st }
  (s.lastStatus, s)

/-- Method `setOutputPower`. -/
def setOutputPower (s : LoRaHeltecV4) (power : Int) (st : Int) : Int × LoRaHeltecV4 :=
  let power := if power > 22 then 22 else power
  let power := if power < -9 then -9 else power
  let s := emit (Event.radioSetOutputPower power) s
  let s := { s with lastStatus := st }
  (s.lastStatus, s)

/-- Method `setSpreadingFactor`. -/
def setSpreadingFactor (s : LoRaHeltecV4) (sf : Nat) (st : Int) : Int × LoRaHeltecV4 :=
  let s := emit (Event.radioSetSpreadingFactor sf) s
  let s := { s with lastStatus := st }
  (s.lastStatus, s)

/-- Method `setBandwidth`. -/
def setBandwidth (s : LoRaHeltecV4) (bw : F32) (st : Int) : Int × LoRaHeltecV4 :=
  let s := emit (Event.radioSetBandwidth bw) s
  let s := { s with lastStatus := st }
  (s.lastStatus, s)

/-- Method `sleep`.  `st` is the status returned by `radio.sleep(true)`. -/
def sleep (R : RadioLibDefs) (s : LoRaHeltecV4) (st : Int) : Int × LoRaHeltecV4 :=
  if !s.initialized then
    (R.RADIOLIB_ERR_CHIP_NOT_FOUND, s)
  else
    let s :=
      if USE_GC1109_PA then
        let s := digitalWrite LORA_PA_EN LOW s
        digitalWrite LORA_PA_TX_EN LOW s
      else s
    let s := emit (Event.radioSleep true) s
    let s := { s with lastStatus := st }
    (s.lastStatus, s)

/-- Method `standby`. -/
def standby (s : LoRaHeltecV4) (st : Int) : Int × LoRaHeltecV4 :=
  let s := emit Event.radioStandby s
  let s := { s with lastStatus := st }
  (s.lastStatus, s)

/-- Result of `getStatus` without the fixed leading text. -/
inductive StatusText where
  | noInicializado
  | ok
  | error (code : Int)
  deriving DecidableEq, Repr

/-- Method `getStatus`. -/
def getStatus (R : RadioLibDefs) (s : LoRaHeltecV4) : StatusText :=
  if !s.initialized then StatusText.noInicializado
  else if s.lastStatus = R.RADIOLIB_ERR_NONE then StatusText.ok
  else StatusText.error s.lastStatus

/-- Method `setRxBoostedGain`. -/
def setRxBoostedGain (s : LoRaHeltecV4) (enable : Bool) (st : Int) : Int × LoRaHeltecV4 :=
  let s := emit (Event.radioSetRxBoostedGainMode enable) s
  let s := { s with lastStatus := st }
  (s.lastStatus, s)

/-! ## Derived notions used by the statements -/

/-- One `send` call with the driver outcome injected into it. -/
structure SendCall where
  data : List Nat
  len : Nat
  stTx : Int
  deriving DecidableEq, Repr

/-- States observed after each call of a sequence of `send` calls has returned. -/
def sendAll (R : RadioLibDefs) : LoRaHeltecV4 → List SendCall → List LoRaHeltecV4
  | _, [] => []
  | s, c :: cs =>
    let s1 := (send R s c.data c.len c.stTx).2
    s1 :: sendAll R s1 cs

/-- Driver calls among the effects. -/
def driverCalls (t : List Event) : List Event :=
  t.filter Event.isDriverCall

/-- Pin writes among the effects. -/
def pinWrites (t : List Event) : List Event :=
  t.filter Event.isPinWrite

/-- One call of a public `int16_t` method other than `begin`, with the driver answers injected. -/
inductive Call where
  | send (data : List Nat) (len : Nat) (stTx : Int)
  | receive (maxLen timeout : Nat) (stRx : Int) (pktLen : Nat)
  | receiveStr (timeout : Nat) (stRx : Int)
  | startReceive (stRx : Int)
  | readData (maxLen : Nat) (stRead : Int) (pktLen : Nat)
  | sleep (st : Int)
  | setFrequency (freq : F32) (st : Int)
  | setOutputPower (power : Int) (st : Int)
  | setSpreadingFactor (sf : Nat) (st : Int)
  | setBandwidth (bw : F32) (st : Int)
  | setRxBoostedGain (enable : Bool) (st : Int)
  | standby (st : Int)
  deriving DecidableEq, Repr

/-- The methods that test the `initialized` flag on entry. -/
def Call.guarded : Call → Bool
  | .send _ _ _ => true
  | .receive _ _ _ _ => true
  | .receiveStr _ _ => true
  | .startReceive _ => true
  | .readData _ _ _ => true
  | .sleep _ => true
  | _ => false

/-- Carry out one call. -/
def Call.run (R : RadioLibDefs) (s : LoRaHeltecV4) : Call → Int × LoRaHeltecV4
  | .send data len stTx => LoRaHeltec.send R s data len stTx
  | .receive maxLen timeout stRx pktLen => LoRaHeltec.receive R s maxLen timeout stRx pktLen
  | .receiveStr timeout stRx => LoRaHeltec.receiveStr R s timeout stRx
  | .startReceive stRx => LoRaHeltec.startReceive R s stRx
  | .readData maxLen stRead pktLen => LoRaHeltec.readData R s maxLen stRead pktLen
  | .sleep st => LoRaHeltec.sleep R s st
  | .setFrequency freq st => LoRaHeltec.setFrequency s freq st
  | .setOutputPower power st => LoRaHeltec.setOutputPower s power st
  | .setSpreadingFactor sf st => LoRaHeltec.setSpreadingFactor s sf st
  | .setBandwidth bw st => LoRaHeltec.setBandwidth s bw st
  | .setRxBoostedGain enable st => LoRaHeltec.setRxBoostedGain s enable st
  | .standby st => LoRaHeltec.standby s st

/-- One step of a run: the call, the state it started in, what it returned and the state it left. -/
structure Step where
  call : Call
  pre : LoRaHeltecV4
  ret : Int
  post : LoRaHeltecV4
  deriving DecidableEq, Repr

/-- The steps of a sequence of calls carried out one after the other. -/
def runCalls (R : RadioLibDefs) : LoRaHeltecV4 → List Call → List Step
  | _, [] => []
  | s, c :: cs =>
    let r := c.run R s
    { call := c, pre := s, ret := r.1, post := r.2 } :: runCalls R r.2 cs

/-- The state left by a sequence of calls carried out one after the other. -/
def runFinal (R : RadioLibDefs) : LoRaHeltecV4 → List Call → LoRaHeltecV4
  | s, [] => s
  | s, c :: cs => runFinal R (c.run R s).2 cs

/-- The string `getStatus` returns: the fixed leading text, then the text of the
branch taken; `String(lastStatus)` is the decimal rendering of the code. -/
def StatusText.render : StatusText → String
  | .noInicializado => "[LoRa] Estado: " ++ "No inicializado"
  | .ok => "[LoRa] Estado: " ++ "OK"
  | .error code => "[LoRa] Estado: " ++ "Error (" ++ toString code ++ ")"

/-- Pin levels after the pin writes among a list of effects, starting from `p`. -/
def replayPins (p : Pins) : List Event → Pins
  | [] => p
  | Event.digitalWrite pin level :: t => replayPins (p.write pin level) t
  | _ :: t => replayPins p t

/-- The driver calls among a list of effects, in order, each with the pin levels
at the moment of the call, starting from the levels `p`. -/
def driverCallsWithPins (p : Pins) : List Event → List (Event × Pins)
  | [] => []
  | Event.digitalWrite pin level :: t => driverCallsWithPins (p.write pin level) t
  | e :: t =>
    if e.isDriverCall then (e, p) :: driverCallsWithPins p t
    else driverCallsWithPins p t

/-! ## Concrete instances used to evaluate the code -/

/-- A board whose four pins are low. -/
def boardLow : Pins := { vext := false, paPower := false, paEn := false, paTxEn := false }

/-- A freshly constructed object (`begin` not called yet). -/
def freshInstance : LoRaHeltecV4 := LoRaHeltecV4.ctor radioLib boardLow

/-- The object after `begin()` with the default arguments, every driver call succeeding. -/
def idleInstance : LoRaHeltecV4 :=
  (begin radioLib freshInstance LORA_FREQUENCY LORA_BANDWIDTH LORA_SPREADING LORA_CODING_RATE
    LORA_SYNC_WORD LORA_TX_POWER 0 0 0 0).2

/-- The object after `begin()` with the default arguments, `radio.begin` answering `-2`. -/
def failedInstance : LoRaHeltecV4 :=
  (begin radioLib freshInstance LORA_FREQUENCY LORA_BANDWIDTH LORA_SPREADING LORA_CODING_RATE
    LORA_SYNC_WORD LORA_TX_POWER (-2) 0 0 0).2

/-! ## Basic facts about the private helpers -/

theorem setTxEnable_initialized (b : Bool) (s : LoRaHeltecV4) :
    (setTxEnable b s).initialized = s.initialized := by
  simp [setTxEnable, digitalWrite, USE_GC1109_PA]

theorem setTxEnable_lastStatus (b : Bool) (s : LoRaHeltecV4) :
    (setTxEnable b s).lastStatus = s.lastStatus := by
  simp [setTxEnable, digitalWrite, USE_GC1109_PA]

theorem setTxEnable_pins (b : Bool) (s : LoRaHeltecV4) :
    (setTxEnable b s).pins = { s.pins with paPower := HIGH, paEn := HIGH, paTxEn := b } := by
  cases b <;>
    simp [setTxEnable, digitalWrite, Pins.write, USE_GC1109_PA, LORA_PA_POWER, LORA_PA_EN,
      LORA_PA_TX_EN, VEXT_ENABLE, HIGH, LOW]

theorem setTxEnable_trace (b : Bool) (s : LoRaHeltecV4) :
    (setTxEnable b s).trace = s.trace ++ [Event.digitalWrite LORA_PA_POWER HIGH,
      Event.digitalWrite LORA_PA_EN HIGH, Event.digitalWrite LORA_PA_TX_EN b] := by
  cases b <;> simp [setTxEnable, digitalWrite, USE_GC1109_PA, HIGH, LOW]

theorem read_paTxEn (p : Pins) : p.read LORA_PA_TX_EN = p.paTxEn := by
  simp [Pins.read, LORA_PA_TX_EN, VEXT_ENABLE, LORA_PA_POWER, LORA_PA_EN]

theorem read_paEn (p : Pins) : p.read LORA_PA_EN = p.paEn := by
  simp [Pins.read, VEXT_ENABLE, LORA_PA_POWER, LORA_PA_EN]

theorem read_paPower (p : Pins) : p.read LORA_PA_POWER = p.paPower := by
  simp [Pins.read, VEXT_ENABLE, LORA_PA_POWER]

theorem read_vext (p : Pins) : p.read VEXT_ENABLE = p.vext := by
  simp [Pins.read]

/-- Whatever the driver answers, `begin` leaves TX-enable low. -/
theorem begin_paTxEn (R : RadioLibDefs) (s : LoRaHeltecV4) (frequency bandwidth : F32)
    (spreadingFactor codingRate syncWord : Nat) (power stBegin stLimit stDio2 stCrc : Int) :
    (begin R s frequency bandwidth spreadingFactor codingRate syncWord power
      stBegin stLimit stDio2 stCrc).2.pins.paTxEn = LOW := by
  unfold begin
  by_cases h : stBegin = R.RADIOLIB_ERR_NONE <;>
    simp [h, setVext, initPA, pinMode, emit, digitalWrite, Pins.write, USE_GC1109_PA,
      SX126X_DIO2_AS_RF_SWITCH, LORA_PA_POWER, LORA_PA_EN, LORA_PA_TX_EN, VEXT_ENABLE, HIGH, LOW]

/-- A `send` leaves TX-enable low when the object is initialized or the pin was low before. -/
theorem send_paTxEn (R : RadioLibDefs) (s : LoRaHeltecV4) (data : List Nat) (len : Nat)
    (stTx : Int) (h : s.initialized = true ∨ s.pins.paTxEn = LOW) :
    (send R s data len stTx).2.pins.paTxEn = LOW := by
  unfold send
  cases hi : s.initialized with
  | true => simp [setTxEnable_pins, emit, LOW]
  | false =>
    rcases h with h | h
    · simp [hi] at h
    · simpa using h

theorem sendAll_paTxEn (R : RadioLibDefs) (calls : List SendCall) :
    ∀ s : LoRaHeltecV4, s.pins.paTxEn = LOW →
      ∀ t ∈ sendAll R s calls, t.pins.paTxEn = LOW := by
  induction calls with
  | nil => intro s _ t ht; simp [sendAll] at ht
  | cons c cs ih =>
    intro s hs t ht
    have h1 := send_paTxEn R s c.data c.len c.stTx (Or.inr hs)
    simp only [sendAll, List.mem_cons] at ht
    rcases ht with rfl | ht
    · exact h1
    · exact ih _ h1 t ht

/-- No call other than `begin` changes the `initialized` flag. -/
theorem run_initialized (R : RadioLibDefs) (s : LoRaHeltecV4) (c : Call) :
    (c.run R s).2.initialized = s.initialized := by
  cases c <;> cases hi : s.initialized <;>
    simp [Call.run, send, receive, receiveStr, startReceive, readData, sleep, setFrequency,
      setOutputPower, setSpreadingFactor, setBandwidth, setRxBoostedGain, standby, emit,
      digitalWrite, setTxEnable_initialized, USE_GC1109_PA, hi]
  all_goals split_ifs <;> simp [emit, setTxEnable_initialized, hi]

/-- A guarded call on an uninitialized object returns the not-found code and changes nothing. -/
theorem run_guarded_uninitialized (R : RadioLibDefs) (s : LoRaHeltecV4) (c : Call)
    (hinit : s.initialized = false) (hg : c.guarded = true) :
    c.run R s = (R.RADIOLIB_ERR_CHIP_NOT_FOUND, s) := by
  cases c <;>
    simp_all [Call.run, Call.guarded, send, receive, receiveStr, startReceive, readData, sleep]

theorem runCalls_uninitialized (R : RadioLibDefs) (calls : List Call) :
    ∀ s : LoRaHeltecV4, s.initialized = false →
      ∀ st ∈ runCalls R s calls, st.pre.initialized = false ∧ st.post.initialized = false := by
  induction calls with
  | nil => intro s _ st hst; simp [runCalls] at hst
  | cons c cs ih =>
    intro s hs st hst
    have h1 : (c.run R s).2.initialized = false := by rw [run_initialized]; exact hs
    simp only [runCalls, List.mem_cons] at hst
    rcases hst with rfl | hst
    · exact ⟨hs, h1⟩
    · exact ih _ h1 st hst

theorem runCalls_step (R : RadioLibDefs) (calls : List Call) :
    ∀ s : LoRaHeltecV4, ∀ st ∈ runCalls R s calls, st.call.run R st.pre = (st.ret, st.post) := by
  induction calls with
  | nil => intro s st hst; simp [runCalls] at hst
  | cons c cs ih =>
    intro s st hst
    simp only [runCalls, List.mem_cons] at hst
    rcases hst with rfl | hst
    · rfl
    · exact ih _ st hst

theorem runFinal_initialized (R : RadioLibDefs) (calls : List Call) :
    ∀ s : LoRaHeltecV4, (runFinal R s calls).initialized = s.initialized := by
  induction calls with
  | nil => intro s; rfl
  | cons c cs ih => intro s; simp only [runFinal]; rw [ih, run_initialized]

/-- The flag after `begin`: set when `radio.begin` succeeds, left as it was otherwise. -/
theorem begin_initialized (R : RadioLibDefs) (s : LoRaHeltecV4) (frequency bandwidth : F32)
    (spreadingFactor codingRate syncWord : Nat) (power stBegin stLimit stDio2 stCrc : Int) :
    (begin R s frequency bandwidth spreadingFactor codingRate syncWord power
      stBegin stLimit stDio2 stCrc).2.initialized
      = (if stBegin = R.RADIOLIB_ERR_NONE then true else s.initialized) ∧
    (begin R s frequency bandwidth spreadingFactor codingRate syncWord power
      stBegin stLimit stDio2 stCrc).1 = decide (stBegin = R.RADIOLIB_ERR_NONE) := by
  unfold begin
  by_cases h : stBegin = R.RADIOLIB_ERR_NONE <;>
    simp [h, setVext, initPA, pinMode, emit, digitalWrite, USE_GC1109_PA,
      SX126X_DIO2_AS_RF_SWITCH]

/-- After `begin` the amplifier power pin is high, whatever the driver answers. -/
theorem begin_paPower (R : RadioLibDefs) (s : LoRaHeltecV4) (frequency bandwidth : F32)
    (spreadingFactor codingRate syncWord : Nat) (power stBegin stLimit stDio2 stCrc : Int) :
    (begin R s frequency bandwidth spreadingFactor codingRate syncWord power
      stBegin stLimit stDio2 stCrc).2.pins.paPower = HIGH := by
  unfold begin
  by_cases h : stBegin = R.RADIOLIB_ERR_NONE <;>
    simp [h, setVext, initPA, pinMode, emit, digitalWrite, Pins.write, USE_GC1109_PA,
      SX126X_DIO2_AS_RF_SWITCH, LORA_PA_POWER, LORA_PA_EN, LORA_PA_TX_EN, VEXT_ENABLE, HIGH, LOW]

theorem driverCalls_append (t u : List Event) :
    driverCalls (t ++ u) = driverCalls t ++ driverCalls u := by
  simp [driverCalls]

/-- The text of an error status is never the text of the `OK` status. -/
theorem render_error_ne_ok (c : Int) :
    (StatusText.error c).render ≠ "[LoRa] Estado: OK" := by
  intro h
  have h2 := congrArg String.length h
  simp only [StatusText.render, String.length_append] at h2
  have e1 : "[LoRa] Estado: ".length = 15 := by decide
  have e2 : "Error (".length = 7 := by decide
  have e3 : ")".length = 1 := by decide
  have e4 : "[LoRa] Estado: OK".length = 17 := by decide
  rw [e1, e2, e3, e4] at h2
  omega

/-! ## Claims -/

/-- C1: when `send` returns on an initialized object the pin `LORA_PA_TX_EN` is
low, whatever status `radio.transmit` returned; and after `begin` (successful or
not, from any state) the pin is low after every call of every sequence of
`send` calls with arbitrary injected driver statuses. -/
theorem send_leaves_tx_enable_low (R : RadioLibDefs) (s : LoRaHeltecV4)
    (hinit : s.initialized = true) (data : List Nat) (len : Nat) (stTx : Int)
    (s0 : LoRaHeltecV4) (frequency bandwidth : F32) (spreadingFactor codingRate syncWord : Nat)
    (power stBegin stLimit stDio2 stCrc : Int) (calls : List SendCall) :
    (send R s data len stTx).2.pins.read LORA_PA_TX_EN = LOW ∧
    (begin R s0 frequency bandwidth spreadingFactor codingRate syncWord power
      stBegin stLimit stDio2 stCrc).2.pins.read LORA_PA_TX_EN = LOW ∧
    ∀ t ∈ sendAll R (begin R s0 frequency bandwidth spreadingFactor codingRate syncWord power
      stBegin stLimit stDio2 stCrc).2 calls, t.pins.read LORA_PA_TX_EN = LOW := by
  refine ⟨?_, ?_, ?_⟩
  · rw [read_paTxEn]; exact send_paTxEn R s data len stTx (Or.inl hinit)
  · rw [read_paTxEn]; exact begin_paTxEn ..
  · intro t ht
    rw [read_paTxEn]
    exact sendAll_paTxEn R calls _ (begin_paTxEn ..) t ht

/-- Evaluation of C1 on the initialized default object with a failing transmit, and
on a sequence of a successful and two failing transmits after `begin`. -/
theorem send_leaves_tx_enable_low_witness :
    idleInstance.initialized = true ∧
    ((send radioLib idleInstance [0x48, 0x69] 2 (-5)).2.pins.read LORA_PA_TX_EN = LOW ∧
    (begin radioLib freshInstance LORA_FREQUENCY LORA_BANDWIDTH LORA_SPREADING LORA_CODING_RATE
      LORA_SYNC_WORD LORA_TX_POWER 0 0 0 0).2.pins.read LORA_PA_TX_EN = LOW ∧
    ∀ t ∈ sendAll radioLib (begin radioLib freshInstance LORA_FREQUENCY LORA_BANDWIDTH
      LORA_SPREADING LORA_CODING_RATE LORA_SYNC_WORD LORA_TX_POWER 0 0 0 0).2
      [⟨[0x48, 0x69], 2, 0⟩, ⟨[1], 1, -5⟩, ⟨[], 0, -705⟩], t.pins.read LORA_PA_TX_EN = LOW) :=
  ⟨by decide, send_leaves_tx_enable_low radioLib idleInstance (by decide) [0x48, 0x69] 2 (-5)
    freshInstance LORA_FREQUENCY LORA_BANDWIDTH LORA_SPREADING LORA_CODING_RATE LORA_SYNC_WORD
    LORA_TX_POWER 0 0 0 0 [⟨[0x48, 0x69], 2, 0⟩, ⟨[1], 1, -5⟩, ⟨[], 0, -705⟩]⟩

/-- C2: `setOutputPower(p)` makes exactly one driver call, `radio.setOutputPower`
with the argument `min 22 (max (-9) p)`: 22 for a request above 22 (30 gives 22),
-9 for a request below -9, and `p` itself otherwise. -/
theorem setOutputPower_forwards_clamped (s : LoRaHeltecV4) (p st : Int) :
    (setOutputPower s p st).2.trace
      = s.trace ++ [Event.radioSetOutputPower (min 22 (max (-9) p))] ∧
    min 22 (max (-9) p) = (if 22 < p then 22 else if p < -9 then -9 else p) ∧
    (setOutputPower s 30 st).2.trace = s.trace ++ [Event.radioSetOutputPower 22] := by
  have hmm : min 22 (max (-9) p) = (if 22 < p then 22 else if p < -9 then -9 else p) := by
    split_ifs <;> omega
  refine ⟨?_, hmm, ?_⟩
  · rw [hmm]
    unfold setOutputPower
    by_cases h1 : p > 22
    · simp [h1, emit]
    · by_cases h2 : p < -9
      · have h3 : ¬ (22 < p) := h1
        simp [h1, h2, h3, emit]
      · have h3 : ¬ (22 < p) := h1
        simp [h1, h2, h3, emit]
  · simp [setOutputPower, emit]

/-- C3: `begin` hands its `power` argument to `radio.begin` as it is.  On the
fresh object `begin(915.0, 125.0, 12, 8, 0x12, 30)` makes `radio.begin` its first
driver call, with power 30, which is outside [-9, 22], whatever the driver
answers; `setOutputPower(30)` on the same object forwards 22. -/
theorem begin_forwards_power_unclamped (stBegin stLimit stDio2 stCrc st : Int) :
    (driverCalls (begin radioLib freshInstance LORA_FREQUENCY LORA_BANDWIDTH LORA_SPREADING
      LORA_CODING_RATE LORA_SYNC_WORD 30 stBegin stLimit stDio2 stCrc).2.trace).head?
      = some (Event.radioBegin LORA_FREQUENCY LORA_BANDWIDTH LORA_SPREADING LORA_CODING_RATE
          LORA_SYNC_WORD 30 LORA_PREAMBLE_LEN SX126X_DIO3_TCXO_VOLTAGE false) ∧
    ¬ ((-9 : Int) ≤ 30 ∧ (30 : Int) ≤ 22) ∧
    driverCalls (setOutputPower freshInstance 30 st).2.trace
      = [Event.radioSetOutputPower 22] := by
  refine ⟨?_, by decide, ?_⟩
  · unfold begin
    by_cases h : stBegin = radioLib.RADIOLIB_ERR_NONE <;>
      simp [h, driverCalls, Event.isDriverCall, freshInstance, LoRaHeltecV4.ctor, setVext,
        initPA, pinMode, emit, digitalWrite, USE_GC1109_PA, SX126X_DIO2_AS_RF_SWITCH]
  · simp [driverCalls, Event.isDriverCall, setOutputPower, emit, freshInstance,
      LoRaHeltecV4.ctor]

/-- C4: on an initialized object, when `radio.receive` answers
`RADIOLIB_ERR_RX_TIMEOUT` (a code different from `RADIOLIB_ERR_NONE`),
`receive(data, maxLen, timeout)` returns 0, stores the timeout status in
`lastStatus` and leaves `LORA_PA_TX_EN` low, for every `maxLen` and `timeout`. -/
theorem receive_timeout_returns_zero (R : RadioLibDefs)
    (hne : R.RADIOLIB_ERR_RX_TIMEOUT ≠ R.RADIOLIB_ERR_NONE)
    (s : LoRaHeltecV4) (hinit : s.initialized = true) (maxLen timeout pktLen : Nat) :
    (receive R s maxLen timeout R.RADIOLIB_ERR_RX_TIMEOUT pktLen).1 = 0 ∧
    (receive R s maxLen timeout R.RADIOLIB_ERR_RX_TIMEOUT pktLen).2.lastStatus
      = R.RADIOLIB_ERR_RX_TIMEOUT ∧
    (receive R s maxLen timeout R.RADIOLIB_ERR_RX_TIMEOUT pktLen).2.pins.read LORA_PA_TX_EN
      = LOW := by
  unfold receive
  by_cases ht : timeout > 0 <;>
    simp [hinit, hne, ht, emit, read_paTxEn, setTxEnable_pins, LOW]

/-- Evaluation of C4 on the initialized default object: `receive(data, 255, 10000)`
with the driver timing out. -/
theorem receive_timeout_returns_zero_witness :
    radioLib.RADIOLIB_ERR_RX_TIMEOUT ≠ radioLib.RADIOLIB_ERR_NONE ∧
    idleInstance.initialized = true ∧
    ((receive radioLib idleInstance 255 10000 radioLib.RADIOLIB_ERR_RX_TIMEOUT 0).1 = 0 ∧
    (receive radioLib idleInstance 255 10000 radioLib.RADIOLIB_ERR_RX_TIMEOUT 0).2.lastStatus
      = radioLib.RADIOLIB_ERR_RX_TIMEOUT ∧
    (receive radioLib idleInstance 255 10000
      radioLib.RADIOLIB_ERR_RX_TIMEOUT 0).2.pins.read LORA_PA_TX_EN = LOW) :=
  ⟨by decide, by decide,
    receive_timeout_returns_zero radioLib (by decide) idleInstance (by decide) 255 10000 0⟩

/-- C5: on an object whose `initialized` flag is false, `send`, both `receive`
overloads, `startReceive`, `readData` and `sleep` return
`RADIOLIB_ERR_CHIP_NOT_FOUND` and leave the whole state as it was: nothing is
added to the trace (no driver call, no pin write), the four pins, `lastStatus`
and `initialized` are unchanged; `available` returns false, again with the
state, hence the trace, unchanged. -/
theorem uninitialized_calls_fail_without_effect (R : RadioLibDefs) (s : LoRaHeltecV4)
    (hinit : s.initialized = false) (data : List Nat) (len maxLen timeout pktLen irqFlags : Nat)
    (st : Int) :
    send R s data len st = (R.RADIOLIB_ERR_CHIP_NOT_FOUND, s) ∧
    sendStr R s data st = (R.RADIOLIB_ERR_CHIP_NOT_FOUND, s) ∧
    receive R s maxLen timeout st pktLen = (R.RADIOLIB_ERR_CHIP_NOT_FOUND, s) ∧
    receiveStr R s timeout st = (R.RADIOLIB_ERR_CHIP_NOT_FOUND, s) ∧
    startReceive R s st = (R.RADIOLIB_ERR_CHIP_NOT_FOUND, s) ∧
    readData R s maxLen st pktLen = (R.RADIOLIB_ERR_CHIP_NOT_FOUND, s) ∧
    sleep R s st = (R.RADIOLIB_ERR_CHIP_NOT_FOUND, s) ∧
    available R s irqFlags = (false, s) := by
  simp [send, sendStr, receive, receiveStr, startReceive, readData, sleep, available, hinit]

/-- Evaluation of C5 on the object left by a `begin` in which `radio.begin` failed. -/
theorem uninitialized_calls_fail_without_effect_witness :
    failedInstance.initialized = false ∧
    (send radioLib failedInstance [0x48, 0x69] 2 0 = (-2, failedInstance) ∧
    sendStr radioLib failedInstance [0x48, 0x69] 0 = (-2, failedInstance) ∧
    receive radioLib failedInstance 255 10000 0 5 = (-2, failedInstance) ∧
    receiveStr radioLib failedInstance 10000 0 = (-2, failedInstance) ∧
    startReceive radioLib failedInstance 0 = (-2, failedInstance) ∧
    readData radioLib failedInstance 255 0 5 = (-2, failedInstance) ∧
    sleep radioLib failedInstance 0 = (-2, failedInstance) ∧
    available radioLib failedInstance 2 = (false, failedInstance)) :=
  ⟨by decide,
    uninitialized_calls_fail_without_effect radioLib failedInstance (by decide)
      [0x48, 0x69] 2 255 10000 5 2 0⟩

/-- C6: the six setters do not test `initialized`.  On the fresh object (`begin`
never called) each of `setFrequency`, `setOutputPower`, `setSpreadingFactor`,
`setBandwidth`, `setRxBoostedGain` and `standby` calls its driver operation and
returns the driver status 0, not `RADIOLIB_ERR_CHIP_NOT_FOUND`; `send` on the
same object returns `RADIOLIB_ERR_CHIP_NOT_FOUND` and calls nothing. -/
theorem setters_reach_driver_uninitialized :
    freshInstance.initialized = false ∧
    (setFrequency freshInstance 0x44590000 0).1 = 0 ∧
    driverCalls (setFrequency freshInstance 0x44590000 0).2.trace
      = [Event.radioSetFrequency 0x44590000] ∧
    (setOutputPower freshInstance 10 0).1 = 0 ∧
    driverCalls (setOutputPower freshInstance 10 0).2.trace = [Event.radioSetOutputPower 10] ∧
    (setSpreadingFactor freshInstance 7 0).1 = 0 ∧
    driverCalls (setSpreadingFactor freshInstance 7 0).2.trace
      = [Event.radioSetSpreadingFactor 7] ∧
    (setBandwidth freshInstance LORA_BANDWIDTH 0).1 = 0 ∧
    driverCalls (setBandwidth freshInstance LORA_BANDWIDTH 0).2.trace
      = [Event.radioSetBandwidth LORA_BANDWIDTH] ∧
    (setRxBoostedGain freshInstance true 0).1 = 0 ∧
    driverCalls (setRxBoostedGain freshInstance true 0).2.trace
      = [Event.radioSetRxBoostedGainMode true] ∧
    (standby freshInstance 0).1 = 0 ∧
    driverCalls (standby freshInstance 0).2.trace = [Event.radioStandby] ∧
    radioLib.RADIOLIB_ERR_CHIP_NOT_FOUND ≠ 0 ∧
    send radioLib freshInstance [0x48, 0x69] 2 0
      = (radioLib.RADIOLIB_ERR_CHIP_NOT_FOUND, freshInstance) := by
  decide

/-- C7, as stated, fails: on the initialized default object a second `begin` in
which `radio.begin` answers -2 returns false, yet the following `send` reaches
`radio.transmit` and returns the driver status 0 instead of
`RADIOLIB_ERR_CHIP_NOT_FOUND`. -/
theorem failed_rebegin_keeps_initialized :
    idleInstance.initialized = true ∧
    (-2 : Int) ≠ radioLib.RADIOLIB_ERR_NONE ∧
    (begin radioLib idleInstance LORA_FREQUENCY LORA_BANDWIDTH LORA_SPREADING LORA_CODING_RATE
      LORA_SYNC_WORD LORA_TX_POWER (-2) 0 0 0).1 = false ∧
    (send radioLib (begin radioLib idleInstance LORA_FREQUENCY LORA_BANDWIDTH LORA_SPREADING
      LORA_CODING_RATE LORA_SYNC_WORD LORA_TX_POWER (-2) 0 0 0).2 [0x48, 0x69] 2 0).1 = 0 ∧
    (0 : Int) ≠ radioLib.RADIOLIB_ERR_CHIP_NOT_FOUND ∧
    Event.radioTransmit [0x48, 0x69] 2 ∈
      (send radioLib (begin radioLib idleInstance LORA_FREQUENCY LORA_BANDWIDTH LORA_SPREADING
        LORA_CODING_RATE LORA_SYNC_WORD LORA_TX_POWER (-2) 0 0 0).2 [0x48, 0x69] 2 0).2.trace ∧
    Event.radioTransmit [0x48, 0x69] 2 ∉
      (begin radioLib idleInstance LORA_FREQUENCY LORA_BANDWIDTH LORA_SPREADING
        LORA_CODING_RATE LORA_SYNC_WORD LORA_TX_POWER (-2) 0 0 0).2.trace := by
  decide

/-- C7, amended: on an object whose `initialized` flag is false (as the
constructor leaves it), a `begin` in which `radio.begin` answers a status other
than `RADIOLIB_ERR_NONE` returns false and leaves the flag false; in every
sequence of later calls other than `begin`, each `send`, `receive`,
`startReceive`, `readData` and `sleep` returns `RADIOLIB_ERR_CHIP_NOT_FOUND` and
leaves the state, hence the trace of driver calls, unchanged; and a later
`begin` in which `radio.begin` answers `RADIOLIB_ERR_NONE` returns true and sets
the flag. -/
theorem failed_begin_is_fatal_until_begin_succeeds (R : RadioLibDefs) (s : LoRaHeltecV4)
    (hinit : s.initialized = false) (frequency bandwidth : F32)
    (spreadingFactor codingRate syncWord : Nat) (power stBegin stLimit stDio2 stCrc : Int)
    (hfail : stBegin ≠ R.RADIOLIB_ERR_NONE) (calls : List Call)
    (frequency2 bandwidth2 : F32) (spreadingFactor2 codingRate2 syncWord2 : Nat)
    (power2 stLimit2 stDio22 stCrc2 : Int) :
    (begin R s frequency bandwidth spreadingFactor codingRate syncWord power
      stBegin stLimit stDio2 stCrc).1 = false ∧
    (begin R s frequency bandwidth spreadingFactor codingRate syncWord power
      stBegin stLimit stDio2 stCrc).2.initialized = false ∧
    (∀ st ∈ runCalls R (begin R s frequency bandwidth spreadingFactor codingRate syncWord power
        stBegin stLimit stDio2 stCrc).2 calls,
      st.call.guarded = true →
        st.ret = R.RADIOLIB_ERR_CHIP_NOT_FOUND ∧ st.post = st.pre) ∧
    (begin R (runFinal R (begin R s frequency bandwidth spreadingFactor codingRate syncWord power
        stBegin stLimit stDio2 stCrc).2 calls)
      frequency2 bandwidth2 spreadingFactor2 codingRate2 syncWord2 power2
      R.RADIOLIB_ERR_NONE stLimit2 stDio22 stCrc2).1 = true ∧
    (begin R (runFinal R (begin R s frequency bandwidth spreadingFactor codingRate syncWord power
        stBegin stLimit stDio2 stCrc).2 calls)
      frequency2 bandwidth2 spreadingFactor2 codingRate2 syncWord2 power2
      R.RADIOLIB_ERR_NONE stLimit2 stDio22 stCrc2).2.initialized = true := by
  have hb := begin_initialized R s frequency bandwidth spreadingFactor codingRate syncWord power
    stBegin stLimit stDio2 stCrc
  have h1 : (begin R s frequency bandwidth spreadingFactor codingRate syncWord power
      stBegin stLimit stDio2 stCrc).2.initialized = false := by
    rw [hb.1]; simp [hfail, hinit]
  refine ⟨?_, h1, ?_, ?_, ?_⟩
  · rw [hb.2]; simp [hfail]
  · intro st hst hg
    have hpre := (runCalls_uninitialized R calls _ h1 st hst).1
    have hstep := runCalls_step R calls _ st hst
    rw [run_guarded_uninitialized R st.pre st.call hpre hg] at hstep
    have e1 := congrArg Prod.fst hstep
    have e2 := congrArg Prod.snd hstep
    exact ⟨e1.symm, e2.symm⟩
  · rw [(begin_initialized ..).2]; simp
  · rw [(begin_initialized ..).1]; simp

/-- Evaluation of amended C7 on the fresh object: failed `begin`, then `send`,
`setFrequency`, `receive`, `sleep`, then a successful `begin`. -/
theorem failed_begin_is_fatal_until_begin_succeeds_witness :
    freshInstance.initialized = false ∧ (-2 : Int) ≠ radioLib.RADIOLIB_ERR_NONE ∧
    ((begin radioLib freshInstance LORA_FREQUENCY LORA_BANDWIDTH LORA_SPREADING
      LORA_CODING_RATE LORA_SYNC_WORD LORA_TX_POWER (-2) 0 0 0).1 = false ∧
    (begin radioLib freshInstance LORA_FREQUENCY LORA_BANDWIDTH LORA_SPREADING
      LORA_CODING_RATE LORA_SYNC_WORD LORA_TX_POWER (-2) 0 0 0).2.initialized = false ∧
    (∀ st ∈ runCalls radioLib (begin radioLib freshInstance LORA_FREQUENCY LORA_BANDWIDTH
        LORA_SPREADING LORA_CODING_RATE LORA_SYNC_WORD LORA_TX_POWER (-2) 0 0 0).2
        [Call.send [0x48, 0x69] 2 0, Call.setFrequency LORA_FREQUENCY 0,
          Call.receive 255 10000 0 5, Call.sleep 0],
      st.call.guarded = true →
        st.ret = radioLib.RADIOLIB_ERR_CHIP_NOT_FOUND ∧ st.post = st.pre) ∧
    (begin radioLib (runFinal radioLib (begin radioLib freshInstance LORA_FREQUENCY
        LORA_BANDWIDTH LORA_SPREADING LORA_CODING_RATE LORA_SYNC_WORD LORA_TX_POWER
        (-2) 0 0 0).2
        [Call.send [0x48, 0x69] 2 0, Call.setFrequency LORA_FREQUENCY 0,
          Call.receive 255 10000 0 5, Call.sleep 0])
      LORA_FREQUENCY LORA_BANDWIDTH LORA_SPREADING LORA_CODING_RATE LORA_SYNC_WORD LORA_TX_POWER
      radioLib.RADIOLIB_ERR_NONE 0 0 0).1 = true ∧
    (begin radioLib (runFinal radioLib (begin radioLib freshInstance LORA_FREQUENCY
        LORA_BANDWIDTH LORA_SPREADING LORA_CODING_RATE LORA_SYNC_WORD LORA_TX_POWER
        (-2) 0 0 0).2
        [Call.send [0x48, 0x69] 2 0, Call.setFrequency LORA_FREQUENCY 0,
          Call.receive 255 10000 0 5, Call.sleep 0])
      LORA_FREQUENCY LORA_BANDWIDTH LORA_SPREADING LORA_CODING_RATE LORA_SYNC_WORD LORA_TX_POWER
      radioLib.RADIOLIB_ERR_NONE 0 0 0).2.initialized = true) :=
  ⟨by decide, by decide,
    failed_begin_is_fatal_until_begin_succeeds radioLib freshInstance (by decide)
      LORA_FREQUENCY LORA_BANDWIDTH LORA_SPREADING LORA_CODING_RATE LORA_SYNC_WORD LORA_TX_POWER
      (-2) 0 0 0 (by decide)
      [Call.send [0x48, 0x69] 2 0, Call.setFrequency LORA_FREQUENCY 0,
        Call.receive 255 10000 0 5, Call.sleep 0]
      LORA_FREQUENCY LORA_BANDWIDTH LORA_SPREADING LORA_CODING_RATE LORA_SYNC_WORD LORA_TX_POWER
      0 0 0⟩

/-- C8, as stated, fails: on the initialized default object, on which `available`
has never been called (no `radio.getIrqFlags` in the trace), `readData(data, 255)`
calls `radio.readData` and, the driver answering 0 with a 5 byte packet,
returns the length 5 rather than an error. -/
theorem readData_without_available_reads :
    idleInstance.initialized = true ∧
    Event.radioGetIrqFlags ∉ idleInstance.trace ∧
    Event.radioReadData 255 ∉ idleInstance.trace ∧
    Event.radioReadData 255 ∈ (readData radioLib idleInstance 255 0 5).2.trace ∧
    (readData radioLib idleInstance 255 0 5).1 = 5 := by
  decide

/-- C8, amended: on an initialized object `readData(data, maxLen)` calls
`radio.readData` exactly once, whether or not an `available` call came before
it, stores the driver status in `lastStatus`, and returns the packet length when
that status is `RADIOLIB_ERR_NONE` and the status itself otherwise. -/
theorem readData_always_reads (R : RadioLibDefs) (s : LoRaHeltecV4)
    (hinit : s.initialized = true) (maxLen pktLen irqFlags : Nat) (stRead : Int) :
    (readData R s maxLen stRead pktLen).2.trace
      = s.trace ++ Event.radioReadData maxLen ::
          (if stRead = R.RADIOLIB_ERR_NONE then [Event.radioGetPacketLength] else []) ∧
    (readData R s maxLen stRead pktLen).2.lastStatus = stRead ∧
    (readData R s maxLen stRead pktLen).1
      = (if stRead = R.RADIOLIB_ERR_NONE then toInt16 pktLen else stRead) ∧
    (readData R (available R s irqFlags).2 maxLen stRead pktLen).2.trace
      = (available R s irqFlags).2.trace ++ Event.radioReadData maxLen ::
          (if stRead = R.RADIOLIB_ERR_NONE then [Event.radioGetPacketLength] else []) ∧
    (readData R (available R s irqFlags).2 maxLen stRead pktLen).1
      = (readData R s maxLen stRead pktLen).1 := by
  have hav : (available R s irqFlags).2.initialized = true := by
    unfold available
    simp only [hinit]
    split_ifs <;> simp [emit, hinit]
  unfold readData
  by_cases h : stRead = R.RADIOLIB_ERR_NONE <;> simp [hinit, hav, h, emit]

/-- Evaluation of amended C8 on the initialized default object, the driver
reporting no pending packet and answering -6 to the read. -/
theorem readData_always_reads_witness :
    idleInstance.initialized = true ∧
    ((readData radioLib idleInstance 255 (-6) 0).2.trace
      = idleInstance.trace ++ Event.radioReadData 255 ::
          (if (-6 : Int) = radioLib.RADIOLIB_ERR_NONE then [Event.radioGetPacketLength]
            else []) ∧
    (readData radioLib idleInstance 255 (-6) 0).2.lastStatus = -6 ∧
    (readData radioLib idleInstance 255 (-6) 0).1
      = (if (-6 : Int) = radioLib.RADIOLIB_ERR_NONE then toInt16 (0 : Nat) else -6) ∧
    (readData radioLib (available radioLib idleInstance 0).2 255 (-6) 0).2.trace
      = (available radioLib idleInstance 0).2.trace ++ Event.radioReadData 255 ::
          (if (-6 : Int) = radioLib.RADIOLIB_ERR_NONE then [Event.radioGetPacketLength]
            else []) ∧
    (readData radioLib (available radioLib idleInstance 0).2 255 (-6) 0).1
      = (readData radioLib idleInstance 255 (-6) 0).1) :=
  ⟨by decide, readData_always_reads radioLib idleInstance (by decide) 255 0 0 (-6)⟩

/-- C9, as stated, fails: on the initialized default object, after
`startReceive` has armed the receiver (driver status 0) and before any
`readData`, `send` writes the amplifier pins, calls `radio.transmit` and returns
the driver status 0, and `receive` calls `radio.receive` and returns the
length 5 of the packet; neither returns an error. -/
theorem send_and_receive_proceed_while_receiving :
    idleInstance.initialized = true ∧
    (startReceive radioLib idleInstance 0).1 = 0 ∧
    (send radioLib (startReceive radioLib idleInstance 0).2 [0x48, 0x69] 2 0).1 = 0 ∧
    (send radioLib (startReceive radioLib idleInstance 0).2 [0x48, 0x69] 2 0).2.trace
      = (startReceive radioLib idleInstance 0).2.trace ++
        [Event.digitalWrite LORA_PA_POWER HIGH, Event.digitalWrite LORA_PA_EN HIGH,
          Event.digitalWrite LORA_PA_TX_EN HIGH, Event.radioTransmit [0x48, 0x69] 2,
          Event.digitalWrite LORA_PA_POWER HIGH, Event.digitalWrite LORA_PA_EN HIGH,
          Event.digitalWrite LORA_PA_TX_EN LOW] ∧
    (receive radioLib (startReceive radioLib idleInstance 0).2 255 10000 0 5).1 = 5 ∧
    Event.radioReceive 255 (some 10000) ∈
      (receive radioLib (startReceive radioLib idleInstance 0).2 255 10000 0 5).2.trace := by
  decide

/-- C9, amended: on an initialized object, a `send` or a blocking `receive`
issued after `startReceive` and before any `readData` is carried out like any
other: `send` raises the three amplifier pins, calls `radio.transmit` once,
lowers `LORA_PA_TX_EN` and returns the driver status; `receive` writes the
amplifier pins with `LORA_PA_TX_EN` low, calls `radio.receive` once and returns
the packet length, 0 on a timeout, or the driver status.  After `radio.receive`
nothing more is added to the trace, except on success, where
`radio.getPacketLength` follows and then `radio.getRSSI` and `radio.getSNR`, in
either order. -/
theorem send_and_receive_after_startReceive (R : RadioLibDefs) (s : LoRaHeltecV4)
    (hinit : s.initialized = true) (stStart stTx stRx : Int) (data : List Nat)
    (len maxLen timeout pktLen : Nat) :
    (send R (startReceive R s stStart).2 data len stTx).1 = stTx ∧
    (send R (startReceive R s stStart).2 data len stTx).2.trace
      = (startReceive R s stStart).2.trace ++
        [Event.digitalWrite LORA_PA_POWER HIGH, Event.digitalWrite LORA_PA_EN HIGH,
          Event.digitalWrite LORA_PA_TX_EN HIGH, Event.radioTransmit data len,
          Event.digitalWrite LORA_PA_POWER HIGH, Event.digitalWrite LORA_PA_EN HIGH,
          Event.digitalWrite LORA_PA_TX_EN LOW] ∧
    (receive R (startReceive R s stStart).2 maxLen timeout stRx pktLen).1
      = (if stRx = R.RADIOLIB_ERR_NONE then toInt16 pktLen
          else if stRx = R.RADIOLIB_ERR_RX_TIMEOUT then 0 else stRx) ∧
    (receive R (startReceive R s stStart).2 maxLen timeout stRx pktLen).2.trace.take
        ((startReceive R s stStart).2.trace.length + 4)
      = (startReceive R s stStart).2.trace ++
        [Event.digitalWrite LORA_PA_POWER HIGH, Event.digitalWrite LORA_PA_EN HIGH,
          Event.digitalWrite LORA_PA_TX_EN LOW,
          Event.radioReceive maxLen (if timeout > 0 then some timeout else none)] ∧
    ((receive R (startReceive R s stStart).2 maxLen timeout stRx pktLen).2.trace.drop
        ((startReceive R s stStart).2.trace.length + 4)).head?
      = (if stRx = R.RADIOLIB_ERR_NONE then some Event.radioGetPacketLength else none) ∧
    List.Perm
      ((receive R (startReceive R s stStart).2 maxLen timeout stRx pktLen).2.trace.drop
        ((startReceive R s stStart).2.trace.length + 5))
      (if stRx = R.RADIOLIB_ERR_NONE then [Event.radioGetRSSI, Event.radioGetSNR] else []) := by
  have hst : (startReceive R s stStart).2.initialized = true := by
    simp [startReceive, hinit, emit, setTxEnable_initialized]
  have hrx : ∃ rest : List Event,
      (receive R (startReceive R s stStart).2 maxLen timeout stRx pktLen).2.trace
        = (startReceive R s stStart).2.trace ++
          ([Event.digitalWrite LORA_PA_POWER HIGH, Event.digitalWrite LORA_PA_EN HIGH,
            Event.digitalWrite LORA_PA_TX_EN LOW,
            Event.radioReceive maxLen (if timeout > 0 then some timeout else none)] ++
          (if stRx = R.RADIOLIB_ERR_NONE then Event.radioGetPacketLength :: rest else [])) ∧
      List.Perm rest [Event.radioGetRSSI, Event.radioGetSNR] := by
    unfold receive
    by_cases h1 : stRx = R.RADIOLIB_ERR_RX_TIMEOUT
    · subst h1
      by_cases ht : timeout > 0 <;>
        by_cases h0 : R.RADIOLIB_ERR_RX_TIMEOUT = R.RADIOLIB_ERR_NONE <;>
        simp [hst, h0, ht, setTxEnable_trace, emit, HIGH, LOW] <;>
        first
          | decide
          | exact ⟨_, List.Perm.refl _⟩
    · by_cases ht : timeout > 0 <;> by_cases h0 : stRx = R.RADIOLIB_ERR_NONE <;>
        simp [hst, h0, h1, ht, setTxEnable_trace, emit, HIGH, LOW] <;>
        first
          | decide
          | exact ⟨_, List.Perm.refl _⟩
  obtain ⟨rest, hrest, hperm⟩ := hrx
  refine ⟨?_, ?_, ?_, ?_, ?_, ?_⟩
  · simp [send, hst, setTxEnable_lastStatus, emit]
  · simp [send, hst, setTxEnable_trace, emit, HIGH, LOW]
  · unfold receive
    by_cases h0 : stRx = R.RADIOLIB_ERR_NONE
    · simp [hst, h0]
    · by_cases h1 : stRx = R.RADIOLIB_ERR_RX_TIMEOUT
      · subst h1; simp [hst, h0]
      · simp [hst, h0, h1]
  · rw [hrest, List.take_append]
    simp
  · rw [hrest, List.drop_append]
    by_cases h0 : stRx = R.RADIOLIB_ERR_NONE <;> simp [h0]
  · rw [hrest, List.drop_append]
    by_cases h0 : stRx = R.RADIOLIB_ERR_NONE
    · simpa [h0] using hperm
    · simp [h0]

/-- Evaluation of amended C9 on the initialized default object, with a failing
transmit and a receive that delivers a packet of 5 bytes. -/
theorem send_and_receive_after_startReceive_witness :
    idleInstance.initialized = true ∧
    ((send radioLib (startReceive radioLib idleInstance 0).2 [0x48, 0x69] 2 (-5)).1 = -5 ∧
    (send radioLib (startReceive radioLib idleInstance 0).2 [0x48, 0x69] 2 (-5)).2.trace
      = (startReceive radioLib idleInstance 0).2.trace ++
        [Event.digitalWrite LORA_PA_POWER HIGH, Event.digitalWrite LORA_PA_EN HIGH,
          Event.digitalWrite LORA_PA_TX_EN HIGH, Event.radioTransmit [0x48, 0x69] 2,
          Event.digitalWrite LORA_PA_POWER HIGH, Event.digitalWrite LORA_PA_EN HIGH,
          Event.digitalWrite LORA_PA_TX_EN LOW] ∧
    (receive radioLib (startReceive radioLib idleInstance 0).2 255 10000 0 5).1
      = (if (0 : Int) = radioLib.RADIOLIB_ERR_NONE then toInt16 (5 : Nat)
          else if (0 : Int) = radioLib.RADIOLIB_ERR_RX_TIMEOUT then 0 else 0) ∧
    (receive radioLib (startReceive radioLib idleInstance 0).2 255 10000 0 5).2.trace.take
        ((startReceive radioLib idleInstance 0).2.trace.length + 4)
      = (startReceive radioLib idleInstance 0).2.trace ++
        [Event.digitalWrite LORA_PA_POWER HIGH, Event.digitalWrite LORA_PA_EN HIGH,
          Event.digitalWrite LORA_PA_TX_EN LOW,
          Event.radioReceive 255 (if 10000 > 0 then some 10000 else none)] ∧
    ((receive radioLib (startReceive radioLib idleInstance 0).2 255 10000 0 5).2.trace.drop
        ((startReceive radioLib idleInstance 0).2.trace.length + 4)).head?
      = (if (0 : Int) = radioLib.RADIOLIB_ERR_NONE then some Event.radioGetPacketLength
          else none) ∧
    List.Perm
      ((receive radioLib (startReceive radioLib idleInstance 0).2 255 10000 0 5).2.trace.drop
        ((startReceive radioLib idleInstance 0).2.trace.length + 5))
      (if (0 : Int) = radioLib.RADIOLIB_ERR_NONE then [Event.radioGetRSSI, Event.radioGetSNR]
        else [])) :=
  ⟨by decide,
    send_and_receive_after_startReceive radioLib idleInstance (by decide) 0 (-5) 0
      [0x48, 0x69] 2 255 10000 5⟩

/-- C10, as stated, fails: on the initialized default object, after `sleep()`
has returned (driver status 0), `LORA_PA_EN` and `LORA_PA_TX_EN` are low but
`LORA_PA_POWER` is still high. -/
theorem sleep_leaves_pa_power_high :
    idleInstance.initialized = true ∧
    (sleep radioLib idleInstance 0).1 = 0 ∧
    (sleep radioLib idleInstance 0).2.pins.read LORA_PA_POWER = HIGH ∧
    (sleep radioLib idleInstance 0).2.pins.read LORA_PA_EN = LOW ∧
    (sleep radioLib idleInstance 0).2.pins.read LORA_PA_TX_EN = LOW ∧
    HIGH ≠ LOW := by
  decide

/-- C10, amended: on an initialized object, whatever status `radio.sleep`
returns, after `sleep()` has returned `LORA_PA_EN` and `LORA_PA_TX_EN` are low;
`sleep` writes only these two pins, so `LORA_PA_POWER` (and `VEXT_ENABLE`) keep
the level they had before the call. -/
theorem sleep_lowers_enable_pins (R : RadioLibDefs) (s : LoRaHeltecV4)
    (hinit : s.initialized = true) (st : Int) :
    (sleep R s st).2.pins.read LORA_PA_EN = LOW ∧
    (sleep R s st).2.pins.read LORA_PA_TX_EN = LOW ∧
    (sleep R s st).2.pins.read LORA_PA_POWER = s.pins.read LORA_PA_POWER ∧
    (sleep R s st).2.pins.read VEXT_ENABLE = s.pins.read VEXT_ENABLE ∧
    pinWrites (sleep R s st).2.trace
      = pinWrites s.trace ++
        [Event.digitalWrite LORA_PA_EN LOW, Event.digitalWrite LORA_PA_TX_EN LOW] := by
  simp [sleep, hinit, emit, digitalWrite, Pins.write, Pins.read, pinWrites, Event.isPinWrite,
    USE_GC1109_PA, LORA_PA_POWER, LORA_PA_EN, LORA_PA_TX_EN, VEXT_ENABLE, LOW]

/-- Evaluation of amended C10 on the initialized default object with a failing
driver sleep. -/
theorem sleep_lowers_enable_pins_witness :
    idleInstance.initialized = true ∧
    ((sleep radioLib idleInstance (-705)).2.pins.read LORA_PA_EN = LOW ∧
    (sleep radioLib idleInstance (-705)).2.pins.read LORA_PA_TX_EN = LOW ∧
    (sleep radioLib idleInstance (-705)).2.pins.read LORA_PA_POWER
      = idleInstance.pins.read LORA_PA_POWER ∧
    (sleep radioLib idleInstance (-705)).2.pins.read VEXT_ENABLE
      = idleInstance.pins.read VEXT_ENABLE ∧
    pinWrites (sleep radioLib idleInstance (-705)).2.trace
      = pinWrites idleInstance.trace ++
        [Event.digitalWrite LORA_PA_EN LOW, Event.digitalWrite LORA_PA_TX_EN LOW]) :=
  ⟨by decide, sleep_lowers_enable_pins radioLib idleInstance (by decide) (-705)⟩

/-- C11: on an initialized object `send` returns exactly the status
`radio.transmit` returned and stores it in `lastStatus`; `receive(data, maxLen,
timeout)` returns exactly the status `radio.receive` returned, and stores it in
`lastStatus`, for every status other than `RADIOLIB_ERR_NONE` and
`RADIOLIB_ERR_RX_TIMEOUT`; in both the driver operation is the only driver call
made and is made once (no retry). -/
theorem driver_status_surfaced_verbatim (R : RadioLibDefs) (s : LoRaHeltecV4)
    (hinit : s.initialized = true) (data : List Nat) (len maxLen timeout pktLen : Nat)
    (stTx stRx : Int) (hnone : stRx ≠ R.RADIOLIB_ERR_NONE)
    (htimeout : stRx ≠ R.RADIOLIB_ERR_RX_TIMEOUT) :
    (send R s data len stTx).1 = stTx ∧
    (send R s data len stTx).2.lastStatus = stTx ∧
    driverCalls (send R s data len stTx).2.trace
      = driverCalls s.trace ++ [Event.radioTransmit data len] ∧
    (receive R s maxLen timeout stRx pktLen).1 = stRx ∧
    (receive R s maxLen timeout stRx pktLen).2.lastStatus = stRx ∧
    driverCalls (receive R s maxLen timeout stRx pktLen).2.trace
      = driverCalls s.trace ++
        [Event.radioReceive maxLen (if timeout > 0 then some timeout else none)] := by
  refine ⟨?_, ?_, ?_, ?_, ?_, ?_⟩
  · simp [send, hinit, setTxEnable_lastStatus, emit]
  · simp [send, hinit, setTxEnable_lastStatus, emit]
  · simp [send, hinit, setTxEnable_trace, emit, driverCalls, Event.isDriverCall]
  · simp [receive, hinit, hnone, htimeout]
  · simp [receive, hinit, hnone, htimeout]
  · unfold receive
    by_cases ht : timeout > 0 <;>
      simp [hinit, hnone, htimeout, ht, setTxEnable_trace, emit, driverCalls,
        Event.isDriverCall]

/-- Evaluation of C11 on the initialized default object: a transmit failing with
-5 and a receive failing with -7. -/
theorem driver_status_surfaced_verbatim_witness :
    idleInstance.initialized = true ∧ (-7 : Int) ≠ radioLib.RADIOLIB_ERR_NONE ∧
    (-7 : Int) ≠ radioLib.RADIOLIB_ERR_RX_TIMEOUT ∧
    ((send radioLib idleInstance [0x48, 0x69] 2 (-5)).1 = -5 ∧
    (send radioLib idleInstance [0x48, 0x69] 2 (-5)).2.lastStatus = -5 ∧
    driverCalls (send radioLib idleInstance [0x48, 0x69] 2 (-5)).2.trace
      = driverCalls idleInstance.trace ++ [Event.radioTransmit [0x48, 0x69] 2] ∧
    (receive radioLib idleInstance 255 10000 (-7) 0).1 = -7 ∧
    (receive radioLib idleInstance 255 10000 (-7) 0).2.lastStatus = -7 ∧
    driverCalls (receive radioLib idleInstance 255 10000 (-7) 0).2.trace
      = driverCalls idleInstance.trace ++
        [Event.radioReceive 255 (if 10000 > 0 then some 10000 else none)]) :=
  ⟨by decide, by decide, by decide,
    driver_status_surfaced_verbatim radioLib idleInstance (by decide) [0x48, 0x69] 2 255 10000 0
      (-5) (-7) (by decide) (by decide)⟩

/-- C12: on a freshly constructed object `begin` returns true, and sets
`initialized`, exactly when `radio.begin` returns `RADIOLIB_ERR_NONE`, whatever
`setCurrentLimit`, `setDio2AsRfSwitch` and `setCRC` return; when `radio.begin`
returns another status, `begin` returns false, leaves `initialized` false, has
that status in `lastStatus`, and `radio.begin` is the only driver call made. -/
theorem begin_succeeds_iff_driver_begin (R : RadioLibDefs) (pins : Pins)
    (frequency bandwidth : F32) (spreadingFactor codingRate syncWord : Nat)
    (power stBegin stLimit stDio2 stCrc : Int) :
    ((begin R (LoRaHeltecV4.ctor R pins) frequency bandwidth spreadingFactor codingRate syncWord
      power stBegin stLimit stDio2 stCrc).1 = true ↔ stBegin = R.RADIOLIB_ERR_NONE) ∧
    ((begin R (LoRaHeltecV4.ctor R pins) frequency bandwidth spreadingFactor codingRate syncWord
      power stBegin stLimit stDio2 stCrc).2.initialized = true
        ↔ stBegin = R.RADIOLIB_ERR_NONE) ∧
    (begin R (LoRaHeltecV4.ctor R pins) frequency bandwidth spreadingFactor codingRate syncWord
      power stBegin stLimit stDio2 stCrc).2.lastStatus
      = (if stBegin = R.RADIOLIB_ERR_NONE then stCrc else stBegin) ∧
    driverCalls (begin R (LoRaHeltecV4.ctor R pins) frequency bandwidth spreadingFactor
      codingRate syncWord power stBegin stLimit stDio2 stCrc).2.trace
      = Event.radioBegin frequency bandwidth spreadingFactor codingRate syncWord power
          LORA_PREAMBLE_LEN SX126X_DIO3_TCXO_VOLTAGE false ::
        (if stBegin = R.RADIOLIB_ERR_NONE then
          [Event.radioSetCurrentLimit LORA_CURRENT_LIMIT, Event.radioSetDio2AsRfSwitch true,
            Event.radioSetCRC R.RADIOLIB_SX126X_LORA_CRC_ON]
        else []) := by
  unfold begin
  by_cases h : stBegin = R.RADIOLIB_ERR_NONE <;>
    simp [h, LoRaHeltecV4.ctor, setVext, initPA, pinMode, emit, digitalWrite, driverCalls,
      Event.isDriverCall, USE_GC1109_PA, SX126X_DIO2_AS_RF_SWITCH]

/-- C13: on an initialized object the effects `send` adds to the trace are, in
order: `LORA_PA_POWER` high, `LORA_PA_EN` high, `LORA_PA_TX_EN` high, the single
driver call `radio.transmit`, then `LORA_PA_POWER` high, `LORA_PA_EN` high,
`LORA_PA_TX_EN` low.  `radio.transmit` is the only driver call among them, it is
made once, and at the moment it is made the three amplifier pins are high; the
pin levels `send` leaves are those these writes produce. -/
theorem send_transmits_with_amplifier_on (R : RadioLibDefs) (s : LoRaHeltecV4)
    (hinit : s.initialized = true) (data : List Nat) (len : Nat) (stTx : Int) :
    (send R s data len stTx).2.trace
      = s.trace ++
        [Event.digitalWrite LORA_PA_POWER HIGH, Event.digitalWrite LORA_PA_EN HIGH,
          Event.digitalWrite LORA_PA_TX_EN HIGH, Event.radioTransmit data len,
          Event.digitalWrite LORA_PA_POWER HIGH, Event.digitalWrite LORA_PA_EN HIGH,
          Event.digitalWrite LORA_PA_TX_EN LOW] ∧
    driverCallsWithPins s.pins ((send R s data len stTx).2.trace.drop s.trace.length)
      = [(Event.radioTransmit data len,
          { s.pins with paPower := HIGH, paEn := HIGH, paTxEn := HIGH })] ∧
    ({ s.pins with paPower := HIGH, paEn := HIGH, paTxEn := HIGH } : Pins).read LORA_PA_POWER
      = HIGH ∧
    ({ s.pins with paPower := HIGH, paEn := HIGH, paTxEn := HIGH } : Pins).read LORA_PA_EN
      = HIGH ∧
    ({ s.pins with paPower := HIGH, paEn := HIGH, paTxEn := HIGH } : Pins).read LORA_PA_TX_EN
      = HIGH ∧
    (send R s data len stTx).2.pins
      = replayPins s.pins ((send R s data len stTx).2.trace.drop s.trace.length) := by
  have htrace : (send R s data len stTx).2.trace
      = s.trace ++
        [Event.digitalWrite LORA_PA_POWER HIGH, Event.digitalWrite LORA_PA_EN HIGH,
          Event.digitalWrite LORA_PA_TX_EN HIGH, Event.radioTransmit data len,
          Event.digitalWrite LORA_PA_POWER HIGH, Event.digitalWrite LORA_PA_EN HIGH,
          Event.digitalWrite LORA_PA_TX_EN LOW] := by
    simp [send, hinit, setTxEnable_trace, emit, HIGH, LOW]
  refine ⟨htrace, ?_, ?_, ?_, ?_, ?_⟩
  · rw [htrace, List.drop_left]
    simp [driverCallsWithPins, Event.isDriverCall, Pins.write, LORA_PA_POWER, LORA_PA_EN,
      LORA_PA_TX_EN, VEXT_ENABLE, HIGH]
  · rw [read_paPower]
  · rw [read_paEn]
  · rw [read_paTxEn]
  · rw [htrace, List.drop_left]
    simp [send, hinit, setTxEnable_pins, emit, replayPins, Pins.write, LORA_PA_POWER,
      LORA_PA_EN, LORA_PA_TX_EN, VEXT_ENABLE, HIGH, LOW]

/-- Evaluation of C13 on the initialized default object, the transmit failing with -5. -/
theorem send_transmits_with_amplifier_on_witness :
    idleInstance.initialized = true ∧
    ((send radioLib idleInstance [0x48, 0x69] 2 (-5)).2.trace
      = idleInstance.trace ++
        [Event.digitalWrite LORA_PA_POWER HIGH, Event.digitalWrite LORA_PA_EN HIGH,
          Event.digitalWrite LORA_PA_TX_EN HIGH, Event.radioTransmit [0x48, 0x69] 2,
          Event.digitalWrite LORA_PA_POWER HIGH, Event.digitalWrite LORA_PA_EN HIGH,
          Event.digitalWrite LORA_PA_TX_EN LOW] ∧
    driverCallsWithPins idleInstance.pins
        ((send radioLib idleInstance [0x48, 0x69] 2 (-5)).2.trace.drop idleInstance.trace.length)
      = [(Event.radioTransmit [0x48, 0x69] 2,
          { idleInstance.pins with paPower := HIGH, paEn := HIGH, paTxEn := HIGH })] ∧
    ({ idleInstance.pins with paPower := HIGH, paEn := HIGH, paTxEn := HIGH } : Pins).read
      LORA_PA_POWER = HIGH ∧
    ({ idleInstance.pins with paPower := HIGH, paEn := HIGH, paTxEn := HIGH } : Pins).read
      LORA_PA_EN = HIGH ∧
    ({ idleInstance.pins with paPower := HIGH, paEn := HIGH, paTxEn := HIGH } : Pins).read
      LORA_PA_TX_EN = HIGH ∧
    (send radioLib idleInstance [0x48, 0x69] 2 (-5)).2.pins
      = replayPins idleInstance.pins
        ((send radioLib idleInstance [0x48, 0x69] 2 (-5)).2.trace.drop
          idleInstance.trace.length)) :=
  ⟨by decide, send_transmits_with_amplifier_on radioLib idleInstance (by decide) [0x48, 0x69] 2 (-5)⟩

/-- C14: after a `begin` call that returns true, `lastStatus` is the status
`radio.setCRC` returned, so `getStatus` gives the `OK` text exactly when that
status is `RADIOLIB_ERR_NONE` and the `Error (code)` text with the `setCRC`
code otherwise; on every state whose `initialized` flag is false `getStatus`
gives the `No inicializado` text, whatever `lastStatus` is. -/
theorem getStatus_after_begin_reports_setCRC (R : RadioLibDefs) (s : LoRaHeltecV4)
    (frequency bandwidth : F32) (spreadingFactor codingRate syncWord : Nat)
    (power stBegin stLimit stDio2 stCrc : Int)
    (hret : (begin R s frequency bandwidth spreadingFactor codingRate syncWord power
      stBegin stLimit stDio2 stCrc).1 = true)
    (t : LoRaHeltecV4) (ht : t.initialized = false) :
    (begin R s frequency bandwidth spreadingFactor codingRate syncWord power
      stBegin stLimit stDio2 stCrc).2.lastStatus = stCrc ∧
    getStatus R (begin R s frequency bandwidth spreadingFactor codingRate syncWord power
      stBegin stLimit stDio2 stCrc).2
      = (if stCrc = R.RADIOLIB_ERR_NONE then StatusText.ok else StatusText.error stCrc) ∧
    ((getStatus R (begin R s frequency bandwidth spreadingFactor codingRate syncWord power
      stBegin stLimit stDio2 stCrc).2).render = "[LoRa] Estado: OK"
        ↔ stCrc = R.RADIOLIB_ERR_NONE) ∧
    (getStatus R (begin R s frequency bandwidth spreadingFactor codingRate syncWord power
      stBegin stLimit stDio2 stCrc).2).render
      = (if stCrc = R.RADIOLIB_ERR_NONE then "[LoRa] Estado: OK"
          else "[LoRa] Estado: Error (" ++ toString stCrc ++ ")") ∧
    getStatus R t = StatusText.noInicializado ∧
    (getStatus R t).render = "[LoRa] Estado: No inicializado" := by
  have hb : stBegin = R.RADIOLIB_ERR_NONE := by
    have h := (begin_initialized R s frequency bandwidth spreadingFactor codingRate syncWord
      power stBegin stLimit stDio2 stCrc).2
    rw [hret] at h
    exact of_decide_eq_true h.symm
  have hi : (begin R s frequency bandwidth spreadingFactor codingRate syncWord power
      stBegin stLimit stDio2 stCrc).2.initialized = true := by
    rw [(begin_initialized ..).1]; simp [hb]
  have hl : (begin R s frequency bandwidth spreadingFactor codingRate syncWord power
      stBegin stLimit stDio2 stCrc).2.lastStatus = stCrc := by
    simp [begin, hb, emit, SX126X_DIO2_AS_RF_SWITCH]
  have hg : getStatus R (begin R s frequency bandwidth spreadingFactor codingRate syncWord power
      stBegin stLimit stDio2 stCrc).2
      = (if stCrc = R.RADIOLIB_ERR_NONE then StatusText.ok else StatusText.error stCrc) := by
    simp [getStatus, hi, hl]
  have hok : StatusText.ok.render = "[LoRa] Estado: OK" := by decide
  have hno : StatusText.noInicializado.render = "[LoRa] Estado: No inicializado" := by decide
  have hpre : "[LoRa] Estado: " ++ "Error (" = "[LoRa] Estado: Error (" := by decide
  have hgt : getStatus R t = StatusText.noInicializado := by simp [getStatus, ht]
  refine ⟨hl, hg, ?_, ?_, hgt, ?_⟩
  · rw [hg]
    by_cases hc : stCrc = R.RADIOLIB_ERR_NONE
    · simp [hc, hok]
    · simp only [hc, if_false, iff_false]
      exact render_error_ne_ok stCrc
  · rw [hg]
    by_cases hc : stCrc = R.RADIOLIB_ERR_NONE
    · simp [hc, hok]
    · simp only [hc, if_false]
      show "[LoRa] Estado: " ++ "Error (" ++ toString stCrc ++ ")" = _
      rw [hpre]
  · rw [hgt, hno]

/-- Evaluation of C14: `begin` on the fresh object with `setCurrentLimit` failing
with -4 and `setCRC` failing with -3, and `getStatus` on the object left by a
failed `begin`. -/
theorem getStatus_after_begin_reports_setCRC_witness :
    (begin radioLib freshInstance LORA_FREQUENCY LORA_BANDWIDTH LORA_SPREADING LORA_CODING_RATE
      LORA_SYNC_WORD LORA_TX_POWER 0 (-4) 0 (-3)).1 = true ∧
    failedInstance.initialized = false ∧
    ((begin radioLib freshInstance LORA_FREQUENCY LORA_BANDWIDTH LORA_SPREADING LORA_CODING_RATE
      LORA_SYNC_WORD LORA_TX_POWER 0 (-4) 0 (-3)).2.lastStatus = -3 ∧
    getStatus radioLib (begin radioLib freshInstance LORA_FREQUENCY LORA_BANDWIDTH LORA_SPREADING
      LORA_CODING_RATE LORA_SYNC_WORD LORA_TX_POWER 0 (-4) 0 (-3)).2
      = (if (-3 : Int) = radioLib.RADIOLIB_ERR_NONE then StatusText.ok
          else StatusText.error (-3)) ∧
    ((getStatus radioLib (begin radioLib freshInstance LORA_FREQUENCY LORA_BANDWIDTH
      LORA_SPREADING LORA_CODING_RATE LORA_SYNC_WORD LORA_TX_POWER 0 (-4) 0 (-3)).2).render
        = "[LoRa] Estado: OK" ↔ (-3 : Int) = radioLib.RADIOLIB_ERR_NONE) ∧
    (getStatus radioLib (begin radioLib freshInstance LORA_FREQUENCY LORA_BANDWIDTH
      LORA_SPREADING LORA_CODING_RATE LORA_SYNC_WORD LORA_TX_POWER 0 (-4) 0 (-3)).2).render
      = (if (-3 : Int) = radioLib.RADIOLIB_ERR_NONE then "[LoRa] Estado: OK"
          else "[LoRa] Estado: Error (" ++ toString (-3 : Int) ++ ")") ∧
    getStatus radioLib failedInstance = StatusText.noInicializado ∧
    (getStatus radioLib failedInstance).render = "[LoRa] Estado: No inicializado") :=
  ⟨by decide, by decide,
    getStatus_after_begin_reports_setCRC radioLib freshInstance LORA_FREQUENCY LORA_BANDWIDTH
      LORA_SPREADING LORA_CODING_RATE LORA_SYNC_WORD LORA_TX_POWER 0 (-4) 0 (-3) (by decide)
      failedInstance (by decide)⟩

end LoRaHeltec
